import Mathlib

/-!
Shallow embedding of the execution-lifecycle and callback-resume core of the
gcp-hcp-cli repository (Go package `workflows`, plus the `ops wf resume`
command). Remote calls are modelled by explicit outcome parameters
(`Except`-valued observations); machine state the code threads through the
loop (the poll interval) is passed explicitly. Times are integers
(an arbitrary fixed unit); backoff intervals are naturals in milliseconds.
-/

namespace GcpHcp

/-- A JSON-like structured value, modelling Go `interface\x7b\x7d` values produced
by `encoding/json` unmarshalling. -/
inductive JValue where
  | jnull : JValue
  | jbool (b : Bool) : JValue
  | jnum (n : Int) : JValue
  | jstr (s : String) : JValue
  | jarr (xs : List JValue) : JValue
  | jobj (fields : List (String × JValue)) : JValue

/-- A JSON object, modelling Go `map[string]interface\x7b\x7d`. -/
abbrev JObj := List (String × JValue)

/-- Does `sub` occur at the head of `hay`? Helper for `goContains`. -/
def leadsChars : List Char → List Char → Bool
  | [], _ => true
  | _ :: _, [] => false
  | a :: as, b :: bs => a == b && leadsChars as bs

/-- Does `sub` occur anywhere in `hay`? Helper for `goContains`. -/
def containsChars (sub : List Char) : List Char → Bool
  | [] => sub.isEmpty
  | b :: bs => leadsChars sub (b :: bs) || containsChars sub bs

/-- Models Go `strings.Contains(s, sub)`. -/
def goContains (s sub : String) : Bool :=
  containsChars sub.toList s.toList

/-- The cause taxonomy of the error classifier `wrapAuthError`
(src/unnamed/part_005 lines 18-45), one constructor per branch of its
`switch`, in source order. -/
inductive CauseKind where
  | missingCredentials : CauseKind
  | expiredCredentials : CauseKind
  | permissionDenied : CauseKind
  | resourceNotFound : CauseKind
  | unauthenticated : CauseKind
  | unclassified : CauseKind
deriving DecidableEq, Repr

/-- The branch selection of `wrapAuthError`: the `switch` cascade of
src/unnamed/part_005 lines 20-44, with the same substring conditions in the
same order; the first matching case wins, all known cases failing falls to
the default. -/
def classifyAuthError (msg : String) : CauseKind :=
  if goContains msg "could not find default credentials" then .missingCredentials
  else if goContains msg "token expired" || goContains msg "oauth2: token expired" then .expiredCredentials
  else if goContains msg "PermissionDenied" || goContains msg "permission denied" || goContains msg "403" then .permissionDenied
  else if goContains msg "NotFound" || goContains msg "not found" then .resourceNotFound
  else if goContains msg "Unauthenticated" || goContains msg "401" then .unauthenticated
  else .unclassified

/-- The message text each branch of `wrapAuthError` appends to the action
label (the `fmt.Errorf` format strings of src/unnamed/part_005 lines 22-43,
after the leading "%s"). Only the default branch uses the original message. -/
def remediationText (kind : CauseKind) (msg : String) : String :=
  match kind with
  | .missingCredentials =>
      ": no GCP credentials found\n\n  Run: gcloud auth application-default login\n  Or set GOOGLE_APPLICATION_CREDENTIALS to a service account key file"
  | .expiredCredentials =>
      ": GCP credentials have expired\n\n  Run: gcloud auth application-default login"
  | .permissionDenied =>
      ": permission denied\n\n  Ensure your account has the required roles:\n    - roles/workflows.invoker (to execute workflows)\n    - roles/workflows.viewer (to list workflows)\n\n  Check: gcloud projects get-iam-policy <project> --flatten=\x27bindings[].members\x27 --filter=\x27bindings.members:<your-email>\x27"
  | .resourceNotFound =>
      ": resource not found\n\n  Verify the workflow exists: gcphcp ops wf list --project <project> --region <region>\n  Check --project and --region flags are correct"
  | .unauthenticated =>
      ": authentication failed\n\n  Run: gcloud auth application-default login\n  Or: gcloud auth login"
  | .unclassified => ": " ++ msg

/-- Models `wrapAuthError(action, err)` (src/unnamed/part_005 lines 18-45):
the error message it returns for a raw failure message `msg`. -/
def wrapAuthError (action msg : String) : String :=
  action ++ remediationText (classifyAuthError msg) msg

/-- An error value surfaced by the client: either it was produced by the
classifier `wrapAuthError` (`classified`) or by a bare `fmt.Errorf`
(`plain`). The constructor records provenance, which the spec claims
quantify over; the payload is the error message. -/
inductive CliError where
  | classified (msg : String) : CliError
  | plain (msg : String) : CliError
deriving DecidableEq, Repr

/-- The raw execution message returned by the remote execution service
(`executionspb.Execution` as read by `GetExecution`): state string, result
JSON string, optional error context (`exec.Error`, nil or carrying its
`Context` string), start time, and optional end time (`exec.EndTime`, a
nullable proto timestamp). -/
structure RawExecution where
  name : String
  state : String
  result : String
  errorContext : Option String
  startTime : Int
  endTime : Option Int

/-- The `ExecutionResult` struct of src/unnamed/part_005 lines 93-102.
Fields that Go leaves at their zero value unless assigned (`Result`,
`Duration`, `EndTime`, marked omitempty) are modelled as `Option`; `Error`
keeps its Go zero value `""`. -/
structure ExecutionResult where
  name : String
  state : String
  result : Option JObj
  errorMsg : String
  duration : Option Int
  startTime : Int
  endTime : Option Int

/-- Builds an `ExecutionResult` from a raw execution message: the record
construction shared verbatim by `GetExecution` (src/unnamed/part_005 lines
169-194) and the terminal branch of `WaitForCompletion` (lines 213-238).
`unmarshal` models `json.Unmarshal` of a string into a
`map[string]interface\x7b\x7d` (`none` when unmarshalling fails). Duration and end
time are assigned together, only when `exec.EndTime` is non-nil; the result
payload only in state SUCCEEDED, falling back to a single-entry "raw" map
when the result string does not unmarshal; the error message only in state
FAILED and only when `exec.Error` is non-nil. -/
def toExecutionResult (unmarshal : String → Option JObj) (exec : RawExecution) :
    ExecutionResult :=
  { name := exec.name
    state := exec.state
    result :=
      if exec.state = "SUCCEEDED" then
        some (match unmarshal exec.result with
          | none => [("raw", JValue.jstr exec.result)]
          | some parsed => parsed)
      else none
    errorMsg := if exec.state = "FAILED" then exec.errorContext.getD "" else ""
    duration := exec.endTime.map (fun t => t - exec.startTime)
    startTime := exec.startTime
    endTime := exec.endTime }

/-- Models `GetExecution` (src/unnamed/part_005 lines 160-195). The single
remote read is the explicit observation `resp`; a transport error is wrapped
by the classifier with action "getting execution status", a successful read
is converted by `toExecutionResult`. -/
def getExecution (unmarshal : String → Option JObj)
    (resp : Except String RawExecution) : Except CliError ExecutionResult :=
  match resp with
  | .error e => .error (.classified (wrapAuthError "getting execution status" e))
  | .ok exec => .ok (toExecutionResult unmarshal exec)

/-- The poll-interval update at the bottom of `WaitForCompletion`
(src/unnamed/part_005 lines 247-252): double while below the cap, clamping
at the cap. -/
def nextPollInterval (pollInterval maxPoll : Nat) : Nat :=
  if pollInterval < maxPoll then
    let doubled := pollInterval * 2
    if doubled > maxPoll then maxPoll else doubled
  else pollInterval

/-- Outcome of a `WaitForCompletion` run over a finite observation trace. -/
inductive WaitOutcome where
  | done (r : ExecutionResult) : WaitOutcome
  | failed (e : CliError) : WaitOutcome
  | runningOut : WaitOutcome

/-- The polling loop of `WaitForCompletion` (src/unnamed/part_005 lines
202-253), run against an explicit trace of `GetExecution` outcomes, one per
iteration; context cancellation, which the claims under proof do not
involve, is not exercised (the trace ends instead: `runningOut`). Returns
the outcome together with the list of sleep intervals performed, in order:
the loop sleeps `pollInterval` after each non-terminal observation, then
updates the interval via `nextPollInterval` with cap 2000 ms. A transport
error returns immediately, classified with action "checking execution
status"; a state other than ACTIVE and QUEUED returns the converted record
immediately with no further sleep. -/
def waitPollLoop (unmarshal : String → Option JObj) :
    List (Except String RawExecution) → Nat → WaitOutcome × List Nat
  | [], _ => (.runningOut, [])
  | .error e :: _, _ =>
      (.failed (.classified (wrapAuthError "checking execution status" e)), [])
  | .ok exec :: rest, pollInterval =>
      if exec.state != "ACTIVE" && exec.state != "QUEUED" then
        (.done (toExecutionResult unmarshal exec), [])
      else
        let next := waitPollLoop unmarshal rest (nextPollInterval pollInterval 2000)
        (next.1, pollInterval :: next.2)

/-- Models `WaitForCompletion` (src/unnamed/part_005 lines 197-254): the
polling loop started with `pollInterval = 500 ms` (`maxPoll = 2 s`). -/
def waitForCompletion (unmarshal : String → Option JObj)
    (obs : List (Except String RawExecution)) : WaitOutcome × List Nat :=
  waitPollLoop unmarshal obs 500

/-- True for an observation that `WaitForCompletion` treats as non-terminal:
a successful read whose state is ACTIVE or QUEUED. -/
def nonTerminalObs : Except String RawExecution → Bool
  | .ok exec => exec.state == "ACTIVE" || exec.state == "QUEUED"
  | .error _ => false

/-- The `CallbackInfo` struct of src/unnamed/part_006 lines 17-21. -/
structure CallbackInfo where
  name : String
  method : String
  url : String
deriving DecidableEq, Repr

/-- An HTTP response as observed by the callback subsystem: status code and
body (the body already read; a failing `io.ReadAll` is a separate
observation). -/
structure HttpResponse where
  statusCode : Nat
  body : String
deriving DecidableEq, Repr

/-- The outcomes of the HTTP steps a callback operation performs, one field
per fallible step of src/unnamed/part_006: `google.DefaultClient`,
`http.NewRequestWithContext`, `httpClient.Do`, and `io.ReadAll` of the
response body. -/
structure HttpEnv where
  defaultClient : Except String Unit
  newRequestErr : Option String
  doResult : Except String HttpResponse
  readBodyErr : Option String

/-- An HTTP request as issued by `TriggerCallback`: method, URL, and the
payload carried in the body (`none` models the nil `bodyReader` used when
the data map is nil; serialization of the payload by `json.Marshal`, which
cannot fail on JSON-representable map values, is kept abstract). -/
structure HttpRequest where
  method : String
  url : String
  body : Option JObj

/-- Models `TriggerCallback` (src/unnamed/part_006 lines 77-116). Returns
the list of HTTP requests actually handed to `httpClient.Do`, paired with
the returned error (`none` = success). The body carries the data map when
it is non-nil (`if data != nil`); an empty method defaults to POST; after a
completed round trip, a status outside [200, 300) is a plain error carrying
the status and the verbatim response body. -/
def triggerCallback (env : HttpEnv) (callbackURL methodArg : String)
    (data : Option JObj) : List HttpRequest × Option CliError :=
  match env.defaultClient with
  | .error e =>
      ([], some (.classified (wrapAuthError "creating HTTP client for callback trigger" e)))
  | .ok _ =>
    let bodyReader : Option JObj := data
    let method := if methodArg = "" then "POST" else methodArg
    match env.newRequestErr with
    | some e => ([], some (.plain ("creating callback request: " ++ e)))
    | none =>
      let req : HttpRequest := { method := method, url := callbackURL, body := bodyReader }
      match env.doResult with
      | .error e => ([req], some (.classified (wrapAuthError "triggering callback" e)))
      | .ok resp =>
        if resp.statusCode < 200 || resp.statusCode ≥ 300 then
          ([req], some (.plain ("triggering callback: HTTP " ++ toString resp.statusCode ++ ": " ++ resp.body)))
        else
          ([req], none)

/-- The failure exits of the resume command body (src/pkg/ops/wf/resume.go
lines 68-98), one constructor per `return fmt.Errorf` site, in source
order. `unexpectedCallbackState` renders as "execution is <state>, not
waiting on a callback"; `noCompatibleCallback` as "execution is ACTIVE but
has no pending callbacks". -/
inductive ResumeError where
  | gettingExecutionStatus (e : CliError) : ResumeError
  | unexpectedCallbackState (state : String) : ResumeError
  | listingCallbacks (e : CliError) : ResumeError
  | noCompatibleCallback : ResumeError
  | parsingData (e : String) : ResumeError
  | triggeringCallback (e : CliError) : ResumeError

/-- The outcomes of the client calls the resume command makes, in order:
`GetExecution`, `ListCallbacks`, and `TriggerCallback`. -/
structure ResumeEnv where
  getExecutionResult : Except CliError ExecutionResult
  listCallbacksResult : Except CliError (List CallbackInfo)
  triggerResult : Option CliError

/-- Models the decision logic of the resume command (src/pkg/ops/wf/resume.go
lines 68-98), from the `GetExecution` call through the `TriggerCallback`
call. `dataFlag` is the raw `--data` string; `parseData` models
`json.Unmarshal` of it into a map. Returns the error outcome (`none` =
resume succeeded) together with the list of callbacks actually triggered.
The state gate (`result.State != "ACTIVE"`) precedes the callback listing;
an empty callback list fails before any trigger; the first listed callback
is the one triggered. -/
def resumeRun (env : ResumeEnv) (dataFlag : String)
    (parseData : String → Except String JObj) :
    Option ResumeError × List CallbackInfo :=
  match env.getExecutionResult with
  | .error e => (some (.gettingExecutionStatus e), [])
  | .ok result =>
    if result.state != "ACTIVE" then
      (some (.unexpectedCallbackState result.state), [])
    else
      match env.listCallbacksResult with
      | .error e => (some (.listingCallbacks e), [])
      | .ok callbacks =>
        match callbacks with
        | [] => (some .noCompatibleCallback, [])
        | cb :: _ =>
          let parsed : Except String (Option JObj) :=
            if dataFlag != "" then (parseData dataFlag).map some else .ok none
          match parsed with
          | .error e => (some (.parsingData e), [])
          | .ok _ =>
            match env.triggerResult with
            | some e => (some (.triggeringCallback e), [cb])
            | none => (none, [cb])

/-- The poll interval held after `k` interval updates starting from `p`. -/
def intervalAfter (p : Nat) : Nat → Nat
  | 0 => p
  | k + 1 => intervalAfter (nextPollInterval p 2000) k

/-- The sleep intervals of `k` successive non-terminal polls, starting at
interval `p`. -/
def backoffIntervals (p : Nat) : Nat → List Nat
  | 0 => []
  | k + 1 => p :: backoffIntervals (nextPollInterval p 2000) k

lemma waitPollLoop_nonterminal_append (um : String → Option JObj)
    (pre rest : List (Except String RawExecution)) (p : Nat)
    (h : ∀ e ∈ pre, nonTerminalObs e = true) :
    waitPollLoop um (pre ++ rest) p =
      ((waitPollLoop um rest (intervalAfter p pre.length)).1,
        backoffIntervals p pre.length
          ++ (waitPollLoop um rest (intervalAfter p pre.length)).2) := by
  induction pre generalizing p with
  | nil => simp [intervalAfter, backoffIntervals]
  | cons e pre ih =>
    have he : nonTerminalObs e = true := h e (List.mem_cons_self e pre)
    have hpre : ∀ x ∈ pre, nonTerminalObs x = true :=
      fun x hx => h x (List.mem_cons_of_mem e hx)
    cases e with
    | error s => simp [nonTerminalObs] at he
    | ok exec =>
      have he2 : exec.state = "ACTIVE" ∨ exec.state = "QUEUED" := by
        simpa [nonTerminalObs] using he
      have hcond : (exec.state != "ACTIVE" && exec.state != "QUEUED") = false := by
        rcases he2 with h1 | h1 <;> simp [h1]
      rw [List.cons_append]
      simp only [waitPollLoop, hcond, Bool.false_eq_true, if_false,
        List.length_cons, intervalAfter, backoffIntervals]
      rw [ih (nextPollInterval p 2000) hpre]
      simp

lemma intervalAfter_hold (k : Nat) : intervalAfter 2000 k = 2000 := by
  induction k with
  | zero => rfl
  | succ k ih =>
    have hstep : nextPollInterval 2000 2000 = 2000 := rfl
    rw [intervalAfter, hstep]
    exact ih

lemma intervalAfter_doubling (i : Nat) :
    intervalAfter 500 i = min (500 * 2 ^ i) 2000 := by
  match i with
  | 0 => rfl
  | 1 => rfl
  | k + 2 =>
    have h1 : intervalAfter 500 (k + 2) = intervalAfter 2000 k := rfl
    rw [h1, intervalAfter_hold]
    have hpow : (1 : Nat) ≤ 2 ^ k := Nat.one_le_two_pow
    have hle : 2000 ≤ 500 * 2 ^ (k + 2) := by
      calc 2000 = 2000 * 1 := by ring
        _ ≤ 2000 * 2 ^ k := Nat.mul_le_mul_left _ hpow
        _ = 500 * 2 ^ (k + 2) := by ring
    rw [min_eq_right hle]

lemma backoffIntervals_eq_map (k : Nat) :
    ∀ p, backoffIntervals p k = (List.range k).map (intervalAfter p) := by
  induction k with
  | zero => intro p; rfl
  | succ k ih =>
    intro p
    rw [backoffIntervals, ih (nextPollInterval p 2000), List.range_succ_eq_map]
    have hfun : intervalAfter (nextPollInterval p 2000)
        = fun i => intervalAfter p (i + 1) := funext fun i => rfl
    simp only [List.map_cons, List.map_map]
    rw [hfun]
    rfl

/-- C1: over any run of `WaitForCompletion` whose first `k` observations are
non-terminal (QUEUED or ACTIVE), the sleep intervals between successive
polls are exactly `min (500 * 2 ^ i) 2000` for `i = 0, 1, ..., k - 1`, that
is 500 ms, 1000 ms, 2000 ms, 2000 ms, ...: starting at 500 ms, doubling
after every non-terminal observation, capped at and then held at 2000 ms,
never reset and with no jitter. -/
theorem backoff_sequence_capped (um : String → Option JObj)
    (pre rest : List (Except String RawExecution))
    (h : ∀ e ∈ pre, nonTerminalObs e = true) :
    (waitForCompletion um (pre ++ rest)).2.take pre.length
      = (List.range pre.length).map (fun i => min (500 * 2 ^ i) 2000) := by
  rw [waitForCompletion, waitPollLoop_nonterminal_append um pre rest 500 h]
  have hlen : (backoffIntervals 500 pre.length).length = pre.length := by
    rw [backoffIntervals_eq_map]; simp
  simp only []
  rw [List.take_left' hlen, backoffIntervals_eq_map]
  exact List.map_congr_left fun i _ => intervalAfter_doubling i

/-- A non-terminal observation in state QUEUED, for witnesses. -/
def obsQueued : Except String RawExecution :=
  .ok { name := "e1", state := "QUEUED", result := "",
        errorContext := none, startTime := 0, endTime := none }

/-- A non-terminal observation in state ACTIVE, for witnesses. -/
def obsActive : Except String RawExecution :=
  .ok { name := "e1", state := "ACTIVE", result := "",
        errorContext := none, startTime := 0, endTime := none }

theorem backoff_sequence_capped_witness :
    (∀ e ∈ [obsQueued, obsActive, obsActive, obsActive], nonTerminalObs e = true)
    ∧ (waitForCompletion (fun _ => none)
        ([obsQueued, obsActive, obsActive, obsActive] ++ [])).2.take 4
      = (List.range 4).map (fun i => min (500 * 2 ^ i) 2000) :=
  ⟨by decide,
   backoff_sequence_capped (fun _ => none)
     [obsQueued, obsActive, obsActive, obsActive] [] (by decide)⟩

/-- C2: if, after any number of non-terminal observations, `GetExecution`
returns a transport error, the wait aborts at once with that error
classified under the action "checking execution status"; the failed read is
not retried and no further poll is attempted (the run is identical whatever
observations would have followed the failing one). -/
theorem transport_error_aborts_wait (um : String → Option JObj)
    (pre rest : List (Except String RawExecution)) (e : String)
    (h : ∀ x ∈ pre, nonTerminalObs x = true) :
    (waitForCompletion um (pre ++ .error e :: rest)).1
        = .failed (.classified (wrapAuthError "checking execution status" e))
    ∧ waitForCompletion um (pre ++ .error e :: rest)
        = waitForCompletion um (pre ++ [.error e]) := by
  have h1 := waitPollLoop_nonterminal_append um pre (.error e :: rest) 500 h
  have h2 := waitPollLoop_nonterminal_append um pre [.error e] 500 h
  constructor
  · rw [waitForCompletion, h1]
    simp [waitPollLoop]
  · rw [waitForCompletion, h1, waitForCompletion, h2]
    simp [waitPollLoop]

theorem transport_error_aborts_wait_witness :
    (waitForCompletion (fun _ => none)
        ([obsQueued, obsActive] ++ .error "connection reset" :: [obsActive])).1
      = .failed (.classified
          (wrapAuthError "checking execution status" "connection reset"))
    ∧ waitForCompletion (fun _ => none)
        ([obsQueued, obsActive] ++ .error "connection reset" :: [obsActive])
      = waitForCompletion (fun _ => none)
        ([obsQueued, obsActive] ++ [.error "connection reset"]) :=
  transport_error_aborts_wait (fun _ => none) [obsQueued, obsActive]
    [obsActive] "connection reset" (by decide)

/-- The classifier's cause kinds in the priority order the spec states. -/
def causePriority : List CauseKind :=
  [.missingCredentials, .expiredCredentials, .permissionDenied,
   .resourceNotFound, .unauthenticated]

/-- The substring condition each known cause kind matches against the raw
error text (the case guards of `wrapAuthError`). -/
def kindMatches (msg : String) : CauseKind → Bool
  | .missingCredentials => goContains msg "could not find default credentials"
  | .expiredCredentials =>
      goContains msg "token expired" || goContains msg "oauth2: token expired"
  | .permissionDenied =>
      goContains msg "PermissionDenied" || goContains msg "permission denied"
        || goContains msg "403"
  | .resourceNotFound => goContains msg "NotFound" || goContains msg "not found"
  | .unauthenticated => goContains msg "Unauthenticated" || goContains msg "401"
  | .unclassified => true

/-- Modelled from the spec wording of the classifier: the first cause kind in
priority order whose substrings match, `unclassified` when none does. Stated
for comparison against `classifyAuthError`, which is translated from the
source. -/
def specFirstMatch (msg : String) : CauseKind :=
  (causePriority.find? (kindMatches msg)).getD .unclassified

/-- C3: the classifier matches substrings in the fixed priority order
MissingCredentials, ExpiredCredentials, PermissionDenied, ResourceNotFound,
Unauthenticated, first match winning (it equals the spec-worded
first-match function); the message "could not find default credentials"
maps to MissingCredentials, whose message carries the credential-login
instruction "gcloud auth application-default login"; and a message matching
no known substring is returned wrapped with only the action label, the
original message preserved verbatim. -/
theorem classifier_priority_and_fallback :
    (∀ msg, classifyAuthError msg = specFirstMatch msg)
    ∧ classifyAuthError "could not find default credentials"
        = .missingCredentials
    ∧ (∀ action, wrapAuthError action "could not find default credentials"
        = action ++ ": no GCP credentials found\n\n  Run: gcloud auth application-default login\n  Or set GOOGLE_APPLICATION_CREDENTIALS to a service account key file")
    ∧ goContains (remediationText .missingCredentials "")
        "gcloud auth application-default login" = true
    ∧ (∀ action msg, classifyAuthError msg = .unclassified →
        wrapAuthError action msg = action ++ (": " ++ msg)) := by
  refine ⟨?_, rfl, fun action => rfl, rfl, ?_⟩
  · intro msg
    simp only [classifyAuthError, specFirstMatch, causePriority, List.find?,
      kindMatches]
    cases goContains msg "could not find default credentials" <;>
      cases goContains msg "token expired" <;>
      cases goContains msg "oauth2: token expired" <;>
      cases goContains msg "PermissionDenied" <;>
      cases goContains msg "permission denied" <;>
      cases goContains msg "403" <;>
      cases goContains msg "NotFound" <;>
      cases goContains msg "not found" <;>
      cases goContains msg "Unauthenticated" <;>
      cases goContains msg "401" <;>
      rfl
  · intro action msg hu
    rw [wrapAuthError, hu]
    rfl

theorem classifier_priority_and_fallback_witness :
    classifyAuthError "something mysterious happened" = .unclassified
    ∧ wrapAuthError "listing workflows" "something mysterious happened"
        = "listing workflows" ++ (": " ++ "something mysterious happened") :=
  ⟨rfl,
   classifier_priority_and_fallback.2.2.2.2 "listing workflows"
     "something mysterious happened" rfl⟩

lemma waitPollLoop_terminal_head (um : String → Option JObj)
    (exec : RawExecution) (rest : List (Except String RawExecution)) (p : Nat)
    (h1 : exec.state ≠ "ACTIVE") (h2 : exec.state ≠ "QUEUED") :
    waitPollLoop um (.ok exec :: rest) p
      = (.done (toExecutionResult um exec), []) := by
  have hcond : (exec.state != "ACTIVE" && exec.state != "QUEUED") = true := by
    simp [h1, h2]
  simp [waitPollLoop, hcond]

/-- C5: a handle whose first `GetExecution` read already reports a terminal
state (SUCCEEDED, FAILED or CANCELLED) makes `WaitForCompletion` return the
converted record at once: no sleep interval is performed, and the run is
independent of whatever observations would have followed — exactly one read
happens. -/
theorem first_read_terminal_returns (um : String → Option JObj)
    (exec : RawExecution) (rest : List (Except String RawExecution))
    (h : exec.state = "SUCCEEDED" ∨ exec.state = "FAILED"
        ∨ exec.state = "CANCELLED") :
    waitForCompletion um (.ok exec :: rest)
      = (.done (toExecutionResult um exec), []) := by
  have h1 : exec.state ≠ "ACTIVE" := by rcases h with h | h | h <;> rw [h] <;> decide
  have h2 : exec.state ≠ "QUEUED" := by rcases h with h | h | h <;> rw [h] <;> decide
  exact waitPollLoop_terminal_head um exec rest 500 h1 h2

/-- A raw execution observed terminal in state SUCCEEDED, for witnesses. -/
def execSucceeded : RawExecution :=
  { name := "e1", state := "SUCCEEDED", result := "not json",
    errorContext := none, startTime := 3, endTime := some 10 }

theorem first_read_terminal_returns_witness :
    waitForCompletion (fun _ => none) [.ok execSucceeded]
      = (.done (toExecutionResult (fun _ => none) execSucceeded), []) :=
  first_read_terminal_returns (fun _ => none) execSucceeded [] (Or.inl rfl)

/-- C9: the poller's terminality test is literally "state is neither ACTIVE
nor QUEUED": any observed state string other than these two — including
states unknown to the five-state model such as STATE_UNSPECIFIED — stops
the loop immediately and returns the converted record as if terminal, with
no sleep and independently of any further observations. -/
theorem unknown_state_treated_terminal (um : String → Option JObj)
    (exec : RawExecution) (rest : List (Except String RawExecution))
    (h1 : exec.state ≠ "ACTIVE") (h2 : exec.state ≠ "QUEUED") :
    waitForCompletion um (.ok exec :: rest)
      = (.done (toExecutionResult um exec), []) :=
  waitPollLoop_terminal_head um exec rest 500 h1 h2

/-- A raw execution observed in a state outside the five-state model. -/
def execUnspecified : RawExecution :=
  { name := "e1", state := "STATE_UNSPECIFIED", result := "",
    errorContext := none, startTime := 0, endTime := none }

theorem unknown_state_treated_terminal_witness :
    waitForCompletion (fun _ => none) [.ok execUnspecified, obsActive]
      = (.done (toExecutionResult (fun _ => none) execUnspecified), []) :=
  unknown_state_treated_terminal (fun _ => none) execUnspecified [obsActive]
    (by decide) (by decide)

/-- C6: in every record built from a raw execution (the conversion shared by
`GetExecution` and `WaitForCompletion`) the duration is set if and only if
the end timestamp is set, and when set it equals the end timestamp minus
the start timestamp; under the remote service's invariant that non-terminal
executions carry no end timestamp, records in state QUEUED or ACTIVE have
no duration. The record passes the raw start and end timestamps through
unchanged. -/
theorem duration_iff_end_time (um : String → Option JObj)
    (exec : RawExecution)
    (hnt : exec.state = "QUEUED" ∨ exec.state = "ACTIVE" → exec.endTime = none) :
    ((toExecutionResult um exec).duration.isSome
        ↔ (toExecutionResult um exec).endTime.isSome)
    ∧ (∀ t, (toExecutionResult um exec).endTime = some t →
        (toExecutionResult um exec).duration
          = some (t - (toExecutionResult um exec).startTime))
    ∧ (exec.state = "QUEUED" ∨ exec.state = "ACTIVE" →
        (toExecutionResult um exec).duration = none)
    ∧ (toExecutionResult um exec).endTime = exec.endTime
    ∧ (toExecutionResult um exec).startTime = exec.startTime := by
  refine ⟨?_, ?_, ?_, rfl, rfl⟩
  · cases exec.endTime <;> simp [toExecutionResult]
  · intro t ht
    simp only [toExecutionResult] at ht ⊢
    rw [ht]
    rfl
  · intro hq
    simp [toExecutionResult, hnt hq]

theorem duration_iff_end_time_witness :
    (((toExecutionResult (fun _ => none) execSucceeded).duration.isSome
        ↔ (toExecutionResult (fun _ => none) execSucceeded).endTime.isSome)
    ∧ (∀ t, (toExecutionResult (fun _ => none) execSucceeded).endTime = some t →
        (toExecutionResult (fun _ => none) execSucceeded).duration
          = some (t - (toExecutionResult (fun _ => none) execSucceeded).startTime))
    ∧ (execSucceeded.state = "QUEUED" ∨ execSucceeded.state = "ACTIVE" →
        (toExecutionResult (fun _ => none) execSucceeded).duration = none)
    ∧ (toExecutionResult (fun _ => none) execSucceeded).endTime
        = execSucceeded.endTime
    ∧ (toExecutionResult (fun _ => none) execSucceeded).startTime
        = execSucceeded.startTime)
    ∧ (toExecutionResult (fun _ => none) execSucceeded).duration = some 7 :=
  ⟨duration_iff_end_time (fun _ => none) execSucceeded (by decide), rfl⟩

/-- C10: for an execution observed SUCCEEDED whose raw result string does
not unmarshal into a JSON object map, no error is produced: the converted
record's result payload is the single-entry map from "raw" to the original
result string, preserved verbatim; `GetExecution` returns this record
successfully and `WaitForCompletion` returns it as the terminal outcome of
its first read. -/
theorem invalid_json_result_wrapped_raw (um : String → Option JObj)
    (exec : RawExecution) (rest : List (Except String RawExecution))
    (hs : exec.state = "SUCCEEDED") (hp : um exec.result = none) :
    (toExecutionResult um exec).result
        = some [("raw", JValue.jstr exec.result)]
    ∧ getExecution um (.ok exec) = .ok (toExecutionResult um exec)
    ∧ (waitForCompletion um (.ok exec :: rest)).1
        = .done (toExecutionResult um exec) := by
  refine ⟨?_, rfl, ?_⟩
  · simp [toExecutionResult, hs, hp]
  · have h1 : exec.state ≠ "ACTIVE" := by rw [hs]; decide
    have h2 : exec.state ≠ "QUEUED" := by rw [hs]; decide
    rw [waitForCompletion, waitPollLoop_terminal_head um exec rest 500 h1 h2]

theorem invalid_json_result_wrapped_raw_witness :
    (toExecutionResult (fun _ => none) execSucceeded).result
        = some [("raw", JValue.jstr "not json")]
    ∧ getExecution (fun _ => none) (.ok execSucceeded)
        = .ok (toExecutionResult (fun _ => none) execSucceeded)
    ∧ (waitForCompletion (fun _ => none) [.ok execSucceeded, obsActive]).1
        = .done (toExecutionResult (fun _ => none) execSucceeded) :=
  invalid_json_result_wrapped_raw (fun _ => none) execSucceeded [obsActive]
    rfl rfl

/-- C7: given that the initial `GetExecution` read of the resume operation
succeeded with record `r`, the operation fails with the
unexpected-callback-state error if and only if `r`'s state is not ACTIVE,
and fails with the no-compatible-callback error if and only if `r` is
ACTIVE and `ListCallbacks` returned zero pending callbacks; in both failure
cases no callback is triggered. -/
theorem resume_state_gating (env : ResumeEnv) (dataFlag : String)
    (parseData : String → Except String JObj) (r : ExecutionResult)
    (hget : env.getExecutionResult = .ok r) :
    ((∃ s, (resumeRun env dataFlag parseData).1
        = some (.unexpectedCallbackState s)) ↔ r.state ≠ "ACTIVE")
    ∧ ((resumeRun env dataFlag parseData).1 = some .noCompatibleCallback
        ↔ r.state = "ACTIVE" ∧ env.listCallbacksResult = .ok [])
    ∧ (r.state ≠ "ACTIVE" →
        resumeRun env dataFlag parseData
          = (some (.unexpectedCallbackState r.state), []))
    ∧ (r.state = "ACTIVE" → env.listCallbacksResult = .ok [] →
        resumeRun env dataFlag parseData = (some .noCompatibleCallback, [])) := by
  obtain ⟨g, l, t⟩ := env
  simp only at hget
  subst hget
  by_cases hA : r.state = "ACTIVE"
  · have hb : (r.state != "ACTIVE") = false := by simp [hA]
    cases l with
    | error e => simp [resumeRun, hb, hA]
    | ok cbs =>
      cases cbs with
      | nil => simp [resumeRun, hb, hA]
      | cons cb cbs =>
        by_cases hd : dataFlag = ""
        · cases t with
          | none => simp [resumeRun, hb, hA, hd]
          | some e => simp [resumeRun, hb, hA, hd]
        · cases hp : parseData dataFlag with
          | error e => simp [resumeRun, hb, hA, hd, hp, Except.map]
          | ok pd =>
            cases t with
            | none => simp [resumeRun, hb, hA, hd, hp, Except.map]
            | some e => simp [resumeRun, hb, hA, hd, hp, Except.map]
  · have hb : (r.state != "ACTIVE") = true := by simp [hA]
    simp [resumeRun, hb, hA]

/-- A terminal record as the resume command would read it, for witnesses. -/
def recordSucceeded : ExecutionResult :=
  toExecutionResult (fun _ => none) execSucceeded

/-- Resume-call outcomes in which the execution was read back SUCCEEDED. -/
def resumeEnvTerminal : ResumeEnv :=
  { getExecutionResult := .ok recordSucceeded,
    listCallbacksResult := .ok [], triggerResult := none }

theorem resume_state_gating_witness :
    resumeRun resumeEnvTerminal "" (fun s => .error s)
      = (some (.unexpectedCallbackState "SUCCEEDED"), []) :=
  (resume_state_gating resumeEnvTerminal "" (fun s => .error s)
      recordSucceeded rfl).2.2.1 (by decide)

/-- C8 amended: once the authenticated HTTP client and the request are
successfully constructed, `TriggerCallback` hands exactly one request to
the transport, addressed to the given URL, using POST when the method
argument is empty and the given method otherwise, carrying the payload as
its JSON body exactly when the payload map is non-nil; when the round trip
completes, the call succeeds if and only if the response status is in
[200, 300), and on any other status it fails with a plain error carrying
the status and the verbatim response body. -/
theorem trigger_request_shape (env : HttpEnv) (url m : String)
    (d : Option JObj)
    (hc : env.defaultClient = .ok ()) (hr : env.newRequestErr = none) :
    (triggerCallback env url m d).1
      = [{ method := if m = "" then "POST" else m, url := url, body := d }]
    ∧ (∀ resp, env.doResult = .ok resp →
        ((triggerCallback env url m d).2 = none
            ↔ 200 ≤ resp.statusCode ∧ resp.statusCode < 300)
        ∧ (resp.statusCode < 200 ∨ 300 ≤ resp.statusCode →
            (triggerCallback env url m d).2
              = some (.plain ("triggering callback: HTTP "
                  ++ toString resp.statusCode ++ ": " ++ resp.body)))) := by
  obtain ⟨dc, nr, dr, rb⟩ := env
  simp only at hc hr
  subst hc
  subst hr
  cases dr with
  | error s =>
    refine ⟨rfl, ?_⟩
    intro resp h
    simp at h
  | ok resp0 =>
    constructor
    · cases hcond : (resp0.statusCode < 200 || resp0.statusCode ≥ 300) <;>
        simp only [triggerCallback, hcond] <;> rfl
    · intro resp h
      simp only [Except.ok.injEq] at h
      subst h
      cases hcond : (resp0.statusCode < 200 || resp0.statusCode ≥ 300) with
      | true =>
        simp only [Bool.or_eq_true, decide_eq_true_eq] at hcond
        constructor
        · simp only [triggerCallback]
          rw [if_pos (by simp [hcond])]
          simp
          omega
        · intro _
          simp only [triggerCallback]
          rw [if_pos (by simp [hcond])]
      | false =>
        simp only [Bool.or_eq_false_iff, decide_eq_false_iff_not, not_lt,
          not_le] at hcond
        constructor
        · simp only [triggerCallback]
          rw [if_neg (by simp; omega)]
          simp
          omega
        · intro hbad
          exfalso
          omega

/-- An environment in which the trigger round trip succeeds with HTTP 200. -/
def http200Env : HttpEnv :=
  { defaultClient := .ok (), newRequestErr := none,
    doResult := .ok { statusCode := 200, body := "" }, readBodyErr := none }

/-- C8 counterexample: triggering with a present-but-empty payload map (Go
`map[string]interface\x7b\x7d\x7b\x7d`, non-nil with zero entries) issues a request that
does carry a JSON body, although the payload is empty — the code tests
`data != nil`, not emptiness — refuting "the payload is serialized as a
JSON body if and only if it is non-empty". The call itself succeeds on the
200 response. -/
theorem trigger_empty_map_sends_body :
    (triggerCallback http200Env "https://cb.example/resume" "" (some [])).1
      = [{ method := "POST", url := "https://cb.example/resume",
           body := some [] }]
    ∧ (([] : JObj).length = 0)
    ∧ (triggerCallback http200Env "https://cb.example/resume" "" (some [])).2
      = none := ⟨rfl, rfl, rfl⟩

/-- An environment in which the trigger round trip answers HTTP 404. -/
def http404Env : HttpEnv :=
  { defaultClient := .ok (), newRequestErr := none,
    doResult := .ok { statusCode := 404, body := "no such callback" },
    readBodyErr := none }

theorem trigger_request_shape_witness :
    (triggerCallback http404Env "https://cb.example/w" "" none).1
      = [{ method := if "" = "" then "POST" else "", url := "https://cb.example/w",
           body := none }]
    ∧ (((triggerCallback http404Env "https://cb.example/w" "" none).2 = none
        ↔ 200 ≤ 404 ∧ 404 < 300)
      ∧ ((404 : Nat) < 200 ∨ (300 : Nat) ≤ 404 →
          (triggerCallback http404Env "https://cb.example/w" "" none).2
            = some (.plain ("triggering callback: HTTP "
                ++ toString (404 : Nat) ++ ": " ++ "no such callback")))) :=
  ⟨(trigger_request_shape http404Env "https://cb.example/w" "" none rfl rfl).1,
   (trigger_request_shape http404Env "https://cb.example/w" "" none rfl rfl).2
     { statusCode := 404, body := "no such callback" } rfl⟩

end GcpHcp
